import Mathlib

/-!
Verification development for the request-admission and flow-control core of
the kucoin trading agent.  Each Rust component is shallowly embedded as pure
Lean definitions over explicit state records:

* `src/src/api/unified_rate_controller.rs` — `ControllerState` and the
  functions below (`process_queues`, `fastPathOk`, `grant_permit`,
  `record_request`, `awaitOutcome`, `monitorTick`).
* `src/src/api/rate_limiter.rs` — `LimiterState` and `acquire`.
* `src/src/api/adaptive_scheduler.rs` — `SchedulerState`, `heartbeat_check`,
  `can_proceed`, `get_stats`, `record_operation`.
* `src/src/core/integration/{data_quality, pre_trade_validator}.rs` — the
  quality checks, `is_valid` and `can_trade`.
* `src/src/core/adaptive_optimizer.rs` — `analyze_and_optimize`,
  `within_safety_bounds` and the optimizer tick.

Modelling conventions: Rust `u32`/`u64`/`usize` counters are `Nat` (none of
the modelled paths can overflow 64-bit ranges on reachable values, and
`saturating_sub` on naturals is exactly `Nat` subtraction).  `f64` values are
modelled as exact rationals `ℚ`; every float use in the modelled code is a
comparison or a short product/quotient far from any rounding boundary, and
the spots where a decimal literal is not exactly representable in binary are
noted next to the definition.  Monotonic `Instant`s are `Nat` timestamps —
nanoseconds for the adaptive scheduler (whose reset logic truncates
`Duration`s to milliseconds, which is observable) and milliseconds for the
rate limiter and the unified controller.  Nondeterministic jitter is modelled
by passing the hash value that the Rust code draws from `RandomState` as an
explicit argument.  Tokio concurrency is modelled by making every state
mutation an explicit state-passing function; the oneshot-notification race in
`request_permit` is an explicit `notified : Bool` argument.
-/

namespace KC

/-! ## Unified rate controller (`unified_rate_controller.rs`) -/

/-- `TOTAL_CAPACITY: u32 = 800` — 80% of KuCoin's 1000. -/
def TOTAL_CAPACITY : Nat := 800

/-- `SCAN_INTERVAL_NORMAL: u64 = 3600`. -/
def SCAN_INTERVAL_NORMAL : Nat := 3600

/-- `SCAN_INTERVAL_HIGH_LOAD: u64 = 7200`. -/
def SCAN_INTERVAL_HIGH_LOAD : Nat := 7200

/-- Four-tier priority system (`enum Priority`), discriminants 0..3. -/
inductive Priority where
  | critical
  | high
  | medium
  | low
deriving DecidableEq

/-- The source discriminants `Critical = 0, High = 1, Medium = 2, Low = 3`;
the derived `Ord` on the Rust enum orders by this rank. -/
def Priority.rank : Priority → Nat
  | .critical => 0
  | .high => 1
  | .medium => 2
  | .low => 3

/-- `Priority::sla_ms`. -/
def Priority.sla_ms : Priority → Nat
  | .critical => 100
  | .high => 500
  | .medium => 2000
  | .low => 10000

/-- `enum OperationCategory`. -/
inductive OperationCategory where
  | trading
  | scanning
  | administrative
deriving DecidableEq

/-- `OperationCategory::max_capacity_share` returns `0.70 / 0.20 / 0.10`;
the controller always uses it as
`(TOTAL_CAPACITY as f64 * share) as u32`, which evaluates in f64
arithmetic to exactly 560 / 160 / 80, so we embed the resulting weight
caps directly. -/
def OperationCategory.maxCapacityWeight : OperationCategory → Nat
  | .trading => 560
  | .scanning => 160
  | .administrative => 80

/-- `struct RequestRecord` (timestamps in milliseconds). -/
structure RequestRecord where
  timestamp : Nat
  weight : Nat
  priority : Priority
  category : OperationCategory
  operation : String
  queue_time_ms : Nat
  execution_time_ms : Nat
deriving DecidableEq

/-- `struct QueuedRequest`; the oneshot `sender` is represented by the
grant log that `process_queues` returns in the model. -/
structure QueuedRequest where
  priority : Priority
  category : OperationCategory
  weight : Nat
  operation : String
  queued_at : Nat
deriving DecidableEq

/-- `enum ThrottleState`. -/
inductive ThrottleState where
  | normal
  | moderate
  | heavy
  | emergency
deriving DecidableEq

/-- The `category_usage: HashMap<OperationCategory, u32>` map, with its three
keys always present (they are inserted in `new`). -/
structure CategoryUsage where
  trading : Nat
  scanning : Nat
  administrative : Nat
deriving DecidableEq

def CategoryUsage.get (u : CategoryUsage) : OperationCategory → Nat
  | .trading => u.trading
  | .scanning => u.scanning
  | .administrative => u.administrative

/-- `*cat_usage.get_mut(&c).unwrap() += w`. -/
def CategoryUsage.add (u : CategoryUsage) (c : OperationCategory) (w : Nat) : CategoryUsage :=
  match c with
  | .trading => { u with trading := u.trading + w }
  | .scanning => { u with scanning := u.scanning + w }
  | .administrative => { u with administrative := u.administrative + w }

/-- `*cat_usage.get_mut(&c).unwrap() = cat_usage.get(&c).unwrap().saturating_sub(w)`;
`Nat` subtraction is saturating. -/
def CategoryUsage.subSat (u : CategoryUsage) (c : OperationCategory) (w : Nat) : CategoryUsage :=
  match c with
  | .trading => { u with trading := u.trading - w }
  | .scanning => { u with scanning := u.scanning - w }
  | .administrative => { u with administrative := u.administrative - w }

/-- The mutable state of `UnifiedRateController`: the `Arc<RwLock<_>>` fields
and the atomic counters, gathered into one record. -/
structure ControllerState where
  requests : List RequestRecord
  currentUsage : Nat
  categoryUsage : CategoryUsage
  queueCritical : List QueuedRequest
  queueHigh : List QueuedRequest
  queueMedium : List QueuedRequest
  queueLow : List QueuedRequest
  throttleState : ThrottleState
  scanInterval : Nat
  totalRequests : Nat
  throttledRequests : Nat
  slaViolations : Nat
deriving DecidableEq

def ControllerState.queue (s : ControllerState) : Priority → List QueuedRequest
  | .critical => s.queueCritical
  | .high => s.queueHigh
  | .medium => s.queueMedium
  | .low => s.queueLow

def ControllerState.setQueue (s : ControllerState) : Priority → List QueuedRequest → ControllerState
  | .critical, q => { s with queueCritical := q }
  | .high, q => { s with queueHigh := q }
  | .medium, q => { s with queueMedium := q }
  | .low, q => { s with queueLow := q }

/-- `UnifiedRateController::new()`. -/
def initialControllerState : ControllerState :=
  { requests := []
    currentUsage := 0
    categoryUsage := ⟨0, 0, 0⟩
    queueCritical := []
    queueHigh := []
    queueMedium := []
    queueLow := []
    throttleState := .normal
    scanInterval := SCAN_INTERVAL_NORMAL
    totalRequests := 0
    throttledRequests := 0
    slaViolations := 0 }

/-- Σ of `weight` over a record list. -/
def sumWeights (l : List RequestRecord) : Nat :=
  (l.map (fun r => r.weight)).sum

/-- Σ of the three `category_usage` entries. -/
def CategoryUsage.total (u : CategoryUsage) : Nat :=
  u.trading + u.scanning + u.administrative

/-- The eviction loop of the monitor tick (`start_monitoring`, the
`while let Some(req) = reqs.front()` loop): pop front records older than the
cutoff, `saturating_sub`-ing their weight from `current_usage` and from their
category entry. -/
def evictLoop : List RequestRecord → Nat → Nat → CategoryUsage →
    List RequestRecord × Nat × CategoryUsage
  | [], _, usage, cu => ([], usage, cu)
  | r :: rest, cutoff, usage, cu =>
    if r.timestamp < cutoff then
      evictLoop rest cutoff (usage - r.weight) (cu.subSat r.category r.weight)
    else
      (r :: rest, usage, cu)

/-- `max_to_process` in `process_queues`: the per-queue drain budget of a tick. -/
def max_to_process : ThrottleState → Nat
  | .normal => 10
  | .moderate => 5
  | .heavy => 2
  | .emergency => 1

/-- The inner `while processed < max_to_process && !queue.is_empty()` loop of
`process_queues` for one priority queue.  Returns the remaining queue, the
updated `current_usage` and `category_usage`, and (in place of the oneshot
notifications) the list of requests granted, in grant order. -/
def drainLoop : Nat → List QueuedRequest → Nat → CategoryUsage →
    List QueuedRequest × Nat × CategoryUsage × List QueuedRequest
  | 0, q, usage, cu => (q, usage, cu, [])
  | _ + 1, [], usage, cu => ([], usage, cu, [])
  | n + 1, r :: rest, usage, cu =>
    if usage + r.weight ≤ TOTAL_CAPACITY then
      if cu.get r.category + r.weight ≤ r.category.maxCapacityWeight ∨ r.priority = .critical then
        let rec1 := drainLoop n rest (usage + r.weight) (cu.add r.category r.weight)
        (rec1.1, rec1.2.1, rec1.2.2.1, r :: rec1.2.2.2)
      else
        (r :: rest, usage, cu, [])
    else
      (r :: rest, usage, cu, [])

/-- `UnifiedRateController::process_queues`: drain the four queues in the fixed
order `[Critical, High, Medium, Low]`, each under the state-dependent budget
`max_to_process`.  The second component is the concatenated grant log. -/
def process_queues (s : ControllerState) : ControllerState × List QueuedRequest :=
  let m := max_to_process s.throttleState
  let dc := drainLoop m s.queueCritical s.currentUsage s.categoryUsage
  let dh := drainLoop m s.queueHigh dc.2.1 dc.2.2.1
  let dm := drainLoop m s.queueMedium dh.2.1 dh.2.2.1
  let dl := drainLoop m s.queueLow dm.2.1 dm.2.2.1
  ({ s with queueCritical := dc.1
            queueHigh := dh.1
            queueMedium := dm.1
            queueLow := dl.1
            currentUsage := dl.2.1
            categoryUsage := dl.2.2.1 },
   dc.2.2.2 ++ dh.2.2.2 ++ dm.2.2.2 ++ dl.2.2.2)

/-- One tick of the `start_monitoring` loop, at monotonic time `now` (ms):
evict records older than 30 s, recompute the throttle state from
`usage / TOTAL_CAPACITY` against the thresholds 0.90 / 0.80 / 0.60, adjust the
scan interval at the 0.80 threshold, then `process_queues`. -/
def monitorTick (now : Nat) (s : ControllerState) : ControllerState × List QueuedRequest :=
  let cutoff := now - 30000
  let ev := evictLoop s.requests cutoff s.currentUsage s.categoryUsage
  let s := { s with requests := ev.1, currentUsage := ev.2.1, categoryUsage := ev.2.2 }
  let usagePct : ℚ := (s.currentUsage : ℚ) / (TOTAL_CAPACITY : ℚ)
  let throttle : ThrottleState :=
    if (9 : ℚ) / 10 ≤ usagePct then .emergency
    else if (8 : ℚ) / 10 ≤ usagePct then .heavy
    else if (6 : ℚ) / 10 ≤ usagePct then .moderate
    else .normal
  let newInterval :=
    if (8 : ℚ) / 10 ≤ usagePct then SCAN_INTERVAL_HIGH_LOAD else SCAN_INTERVAL_NORMAL
  process_queues { s with throttleState := throttle, scanInterval := newInterval }

/-- `RateLimitPermit` (minus its `&controller` back-pointer): the values the
permit carries. -/
structure RateLimitPermit where
  weight : Nat
  priority : Priority
  category : OperationCategory
  operation : String
  queue_time_ms : Nat
  delayMs : Nat
deriving DecidableEq

/-- `UnifiedRateController::calculate_jitter(min_ms, max_ms)`: the Rust code
hashes `Instant::now()` with a fresh `RandomState`; `hash` is that draw. -/
def calculate_jitter (minMs maxMs hash : Nat) : Nat :=
  minMs + hash % (maxMs - minMs + 1)

/-- `UnifiedRateController::grant_permit`: computes the advised delay from the
throttle state, bumps `total_requests`, and returns the permit.  Note that it
does **not** touch `current_usage` or `category_usage`. -/
def grant_permit (s : ControllerState) (weight : Nat) (priority : Priority)
    (category : OperationCategory) (operation : String) (queueTimeMs hash : Nat) :
    ControllerState × RateLimitPermit :=
  let baseDelayMs : Nat :=
    match s.throttleState with
    | .normal => 10
    | .moderate => 50
    | .heavy => 200
    | .emergency => 500
  let jitter := calculate_jitter (baseDelayMs / 2) (baseDelayMs * 2) hash
  ({ s with totalRequests := s.totalRequests + 1 },
   { weight := weight, priority := priority, category := category,
     operation := operation, queue_time_ms := queueTimeMs, delayMs := jitter })

/-- `UnifiedRateController::record_request` (reached via `permit.complete`):
push a `RequestRecord` onto the `requests` window.  Note that it does **not**
touch `current_usage` or `category_usage`. -/
def record_request (s : ControllerState) (permit : RateLimitPermit)
    (now executionTimeMs : Nat) : ControllerState :=
  { s with requests := s.requests ++
      [{ timestamp := now, weight := permit.weight, priority := permit.priority,
         category := permit.category, operation := permit.operation,
         queue_time_ms := permit.queue_time_ms,
         execution_time_ms := executionTimeMs }] }

/-- The fast-path admission test of `request_permit` (lines 423–429):
`usage + weight <= TOTAL_CAPACITY` and (`cat_current + weight <= cat_max` or
`priority == Critical`). -/
def fastPathOk (s : ControllerState) (weight : Nat) (priority : Priority)
    (category : OperationCategory) : Bool :=
  decide (s.currentUsage + weight ≤ TOTAL_CAPACITY) &&
    (decide (s.categoryUsage.get category + weight ≤ category.maxCapacityWeight) ||
      decide (priority = .critical))

/-- The enqueue step of `request_permit`'s slow path (lines 442–458): bump
`throttled_requests` and push the request onto its priority queue. -/
def enqueueRequest (s : ControllerState) (weight : Nat) (priority : Priority)
    (category : OperationCategory) (operation : String) (now : Nat) : ControllerState :=
  let s := { s with throttledRequests := s.throttledRequests + 1 }
  s.setQueue priority (s.queue priority ++
    [{ priority := priority, category := category, weight := weight,
       operation := operation, queued_at := now }])

/-- The tail of `request_permit`'s slow path (lines 460–501), after the
SLA-bounded wait on the oneshot channel.  `notified = true` is the
`Ok(Ok(_))` arm; `notified = false` is the `Ok(Err(_)) | Err(_)` arm, which
bumps `sla_violations` and then grants anyway only for `Critical`.  `none`
models the `Err(anyhow!("SLA timeout"))` return — the only error exit. -/
def awaitOutcome (s : ControllerState) (weight : Nat) (priority : Priority)
    (category : OperationCategory) (operation : String) (notified : Bool)
    (queueTimeMs hash : Nat) : ControllerState × Option RateLimitPermit :=
  if notified then
    let g := grant_permit s weight priority category operation queueTimeMs hash
    (g.1, some g.2)
  else
    let s := { s with slaViolations := s.slaViolations + 1 }
    if priority = .critical then
      let g := grant_permit s weight priority category operation queueTimeMs hash
      (g.1, some g.2)
    else
      (s, none)

/-- `UnifiedRateController::request_permit`, as a function of the admission
race outcome: the fast path grants immediately when `fastPathOk`; otherwise
the request is enqueued and the result is decided by `awaitOutcome`. -/
def request_permit (s : ControllerState) (weight : Nat) (priority : Priority)
    (category : OperationCategory) (operation : String) (now : Nat)
    (notified : Bool) (queueTimeMs hash : Nat) : ControllerState × Option RateLimitPermit :=
  if fastPathOk s weight priority category then
    let g := grant_permit s weight priority category operation 0 hash
    (g.1, some g.2)
  else
    awaitOutcome (enqueueRequest s weight priority category operation now)
      weight priority category operation notified queueTimeMs hash

/-! ## Weight-window rate limiter (`rate_limiter.rs`) -/

/-- `struct RateLimitConfig` (durations in milliseconds; the breaker
threshold `0.90` is the rational 9/10 — `0.90_f32` differs from it only
below the comparison resolution of the modelled uses). -/
structure RateLimitConfig where
  max_weight_per_window : Nat
  windowDurationMs : Nat
  max_concurrent : Nat
  circuit_breaker_threshold : ℚ
  breakerCooldownMs : Nat
deriving DecidableEq

/-- `RateLimitConfig::default()`: 800 weight / 30 s window / 20 concurrent /
0.90 breaker threshold / 5 s cooldown. -/
def defaultRateLimitConfig : RateLimitConfig :=
  { max_weight_per_window := 800
    windowDurationMs := 30000
    max_concurrent := 20
    circuit_breaker_threshold := 9 / 10
    breakerCooldownMs := 5000 }

/-- `struct RequestLog`. -/
structure RequestLog where
  timestamp : Nat
  weight : Nat
  endpoint : String
deriving DecidableEq

/-- The mutable state of `KuCoinRateLimiter`, plus the monotonic clock `now`
(milliseconds); sleeps advance `now`.  The concurrency semaphore is not
represented: we model a single caller, for whom a slot is always free. -/
structure LimiterState where
  now : Nat
  request_history : List RequestLog
  circuit_breaker_until : Option Nat
  total_requests : Nat
  total_weight_used : Nat
  rate_limit_violations : Nat
deriving DecidableEq

/-- `KuCoinRateLimiter::clean_old_requests`: the `while front < cutoff` pop
loop is `dropWhile` on the timestamp-ordered history. -/
def clean_old_requests (cfg : RateLimitConfig) (now : Nat) (h : List RequestLog) :
    List RequestLog :=
  h.dropWhile (fun r => r.timestamp < now - cfg.windowDurationMs)

/-- `KuCoinRateLimiter::get_current_window_weight`. -/
def windowWeight (h : List RequestLog) : Nat :=
  (h.map (fun r => r.weight)).sum

/-- `KuCoinRateLimiter::calculate_wait_time`: from the oldest in-window
record, `window - elapsed + 100ms`, with a 100 ms floor. -/
def calculate_wait_time (cfg : RateLimitConfig) (now : Nat) (h : List RequestLog) : Nat :=
  match h with
  | [] => 100
  | oldest :: _ =>
    let elapsed := now - oldest.timestamp
    if elapsed < cfg.windowDurationMs then cfg.windowDurationMs - elapsed + 100
    else 100

/-- The circuit-breaker wait at the entry of `acquire` (lines 139–151): if
the breaker deadline lies in the future, sleep until it passes. -/
def breakerWait (s : LimiterState) : LimiterState :=
  match s.circuit_breaker_until with
  | some u => if s.now < u then { s with now := u } else s
  | none => s

/-- `KuCoinRateLimiter::acquire(endpoint, weight)`, with the `Box::pin`
self-recursion bounded by explicit `fuel` (the Rust recursion has no fuel;
`(s, false)` at fuel 0 means the modelled run was still retrying).  Each
iteration: sleep out an active circuit breaker, clean the window, and either
(a) on `projected > max`: bump the violation counter, sleep
`calculate_wait_time` and re-enter, or (b) trip the breaker at ≥ 90%
projected usage (sleeping its cooldown), append the request log and return
the permit.  The Rust function has no rate-limit error return. -/
def acquire : Nat → RateLimitConfig → LimiterState → Nat → String → LimiterState × Bool
  | 0, _, s, _, _ => (s, false)
  | fuel + 1, cfg, s, weight, endpoint =>
    let s := breakerWait s
    let h := clean_old_requests cfg s.now s.request_history
    let s := { s with request_history := h }
    let currentWeight := windowWeight h
    if cfg.max_weight_per_window < currentWeight + weight then
      let wait := calculate_wait_time cfg s.now h
      acquire fuel cfg
        { s with rate_limit_violations := s.rate_limit_violations + 1, now := s.now + wait }
        weight endpoint
    else
      let usagePercent : ℚ := ((currentWeight + weight : Nat) : ℚ) / (cfg.max_weight_per_window : ℚ)
      let s :=
        if cfg.circuit_breaker_threshold ≤ usagePercent then
          { s with circuit_breaker_until := some (s.now + cfg.breakerCooldownMs),
                   now := s.now + cfg.breakerCooldownMs }
        else s
      ({ s with request_history := s.request_history ++ [⟨s.now, weight, endpoint⟩],
                total_requests := s.total_requests + 1,
                total_weight_used := s.total_weight_used + weight }, true)

/-- The proposition that `acquire` keeps retrying forever on an input: no
amount of fuel makes it return a permit. -/
def acquireNeverGrants (cfg : RateLimitConfig) (s : LimiterState) (weight : Nat) : Prop :=
  ∀ fuel, (acquire fuel cfg s weight ("ep")).2 = false

/-! ## Adaptive scheduler (`adaptive_scheduler.rs`)

Timestamps are nanoseconds: the reset logic truncates `Duration`s to whole
milliseconds (`as_millis`), which is observable, so the model keeps the full
`Duration` resolution. -/

/-- `LIMIT_WINDOW_SECONDS * 1e9`: the 30 s window in ns. -/
def LIMIT_WINDOW_NS : Nat := 30000000000

/-- `TOTAL_RESET_DURATION_MS = 30_000 + 1_000 = 31_000` ms, here in ns. -/
def TOTAL_RESET_DURATION_NS : Nat := 31000000000

/-- `TOTAL_RESET_DURATION_MS` itself (`validate_pre_reset` compares in ms). -/
def TOTAL_RESET_DURATION_MS : Nat := 31000

/-- `enum CooldownState`. -/
inductive CooldownState where
  | active
  | throttled
  | heavyThrottle
  | cooldown
  | resetting
deriving DecidableEq

/-- `struct OperationRecord` (timestamps in ns). -/
structure OperationRecord where
  timestamp : Nat
  weight : Nat
  operation_type : String
  elapsed_since_window_start_ns : Nat
deriving DecidableEq

/-- `struct SchedulerState`. -/
structure SchedulerState where
  state : CooldownState
  window_start : Nat
  cooldown_triggered_at : Option Nat
  last_reset : Option Nat
  operations : List OperationRecord
  total_weight_used : Nat
  max_weight : Nat
  operations_count : Nat
  cooldowns_triggered : Nat
  successful_resets : Nat
  failed_resets : Nat
deriving DecidableEq

/-- `AdaptiveScheduler::new(max_weight)` at clock time 0. -/
def initialSchedulerState (maxWeight : Nat) : SchedulerState :=
  { state := .active
    window_start := 0
    cooldown_triggered_at := none
    last_reset := none
    operations := []
    total_weight_used := 0
    max_weight := maxWeight
    operations_count := 0
    cooldowns_triggered := 0
    successful_resets := 0
    failed_resets := 0 }

/-- The eviction loop at the top of `heartbeat_check`: pop front operations
older than the cutoff, `saturating_sub`-ing their weight. -/
def evictOps : List OperationRecord → Nat → Nat → List OperationRecord × Nat
  | [], _, w => ([], w)
  | op :: rest, cutoff, w =>
    if op.timestamp < cutoff then evictOps rest cutoff (w - op.weight)
    else (op :: rest, w)

/-- `AdaptiveScheduler::validate_pre_reset`: cooldown timestamp present,
elapsed (truncated to ms) at least `TOTAL_RESET_DURATION_MS`, and state is
`Resetting`. -/
def validate_pre_reset (now : Nat) (s : SchedulerState) : Bool :=
  match s.cooldown_triggered_at with
  | none => false
  | some t =>
    if (now - t) / 1000000 < TOTAL_RESET_DURATION_MS then false
    else decide (s.state = CooldownState.resetting)

/-- `AdaptiveScheduler::heartbeat_check` at monotonic time `now` (ns): evict
the 30 s window; in `Cooldown`, fire the reset when the remaining time
truncates to 0 ms — validated reset on `validate_pre_reset`, forced reset
(with `failed_resets + 1`) otherwise; in every other state, reclassify from
`usage = total_weight_used / max_weight` against 0.90 / 0.85 / 0.75,
recording `cooldown_triggered_at` and bumping `cooldowns_triggered` on entry
to `Cooldown`. -/
def heartbeat_check (now : Nat) (s : SchedulerState) : SchedulerState :=
  let cutoff := now - LIMIT_WINDOW_NS
  let ev := evictOps s.operations cutoff s.total_weight_used
  let s := { s with operations := ev.1, total_weight_used := ev.2 }
  let usage : ℚ := (s.total_weight_used : ℚ) / (s.max_weight : ℚ)
  if s.state = CooldownState.cooldown then
    match s.cooldown_triggered_at with
    | some cooldownStart =>
      let elapsed := now - cooldownStart
      let remaining := TOTAL_RESET_DURATION_NS - elapsed
      if remaining / 1000000 = 0 then
        let s := { s with state := .resetting }
        if validate_pre_reset now s then
          { s with window_start := now, cooldown_triggered_at := none,
                   operations := [], total_weight_used := 0, state := .active,
                   successful_resets := s.successful_resets + 1,
                   last_reset := some now }
        else
          { s with failed_resets := s.failed_resets + 1,
                   window_start := now, cooldown_triggered_at := none,
                   operations := [], total_weight_used := 0, state := .active }
      else s
    | none => s
  else
    if (9 : ℚ) / 10 ≤ usage then
      let s :=
        if s.state ≠ CooldownState.cooldown then
          { s with cooldown_triggered_at := some now,
                   cooldowns_triggered := s.cooldowns_triggered + 1 }
        else s
      { s with state := .cooldown }
    else if (17 : ℚ) / 20 ≤ usage then { s with state := .heavyThrottle }
    else if (3 : ℚ) / 4 ≤ usage then { s with state := .throttled }
    else { s with state := .active }

/-- `min_ms + hash % (max_ms - min_ms + 1)` as in
`AdaptiveScheduler::calculate_jitter`, converted to a `Duration` in ns
(`Duration::from_millis`). -/
def jitterNs (minMs maxMs hash : Nat) : Nat :=
  (minMs + hash % (maxMs - minMs + 1)) * 1000000

/-- `AdaptiveScheduler::can_proceed(weight)`, under the read lock: the result
pair `(ok, advised delay in ns)` together with the (unchanged) state, making
the absence of writes explicit.  `hash` is the jitter draw. -/
def can_proceed (now : Nat) (s : SchedulerState) (weight hash : Nat) :
    SchedulerState × Bool × Nat :=
  (s,
    match s.state with
    | .cooldown | .resetting =>
      match s.cooldown_triggered_at with
      | some cooldownStart =>
        (false, TOTAL_RESET_DURATION_NS - (now - cooldownStart))
      | none => (false, 31000000000)
    | .heavyThrottle =>
      let projected := s.total_weight_used + weight
      if ((projected : Nat) : ℚ) / (s.max_weight : ℚ) < (22 : ℚ) / 25 then
        (true, jitterNs 400 800 hash)
      else
        (false, 1000000000)
    | .throttled =>
      (true, jitterNs 100 300 hash)
    | .active =>
      let usage : ℚ := (s.total_weight_used : ℚ) / (s.max_weight : ℚ)
      if (17 : ℚ) / 20 < usage then
        (true, jitterNs 50 150 hash)
      else
        (true, jitterNs 10 50 hash))

/-- `struct SchedulerStats` (percentages as exact rationals). -/
structure SchedulerStats where
  state : CooldownState
  usage_percent : ℚ
  weight_used : Nat
  max_weight : Nat
  operations_in_window : Nat
  window_age_ms : Nat
  cooldown_remaining_ms : Nat
  lifetime_operations : Nat
  lifetime_cooldowns : Nat
  lifetime_resets : Nat
  failed_resets : Nat
deriving DecidableEq

/-- `AdaptiveScheduler::get_stats`, under the read lock: the snapshot
together with the (unchanged) state. -/
def get_stats (now : Nat) (s : SchedulerState) : SchedulerState × SchedulerStats :=
  (s,
   { state := s.state
     usage_percent := (s.total_weight_used : ℚ) / (s.max_weight : ℚ) * 100
     weight_used := s.total_weight_used
     max_weight := s.max_weight
     operations_in_window := s.operations.length
     window_age_ms := (now - s.window_start) / 1000000
     cooldown_remaining_ms :=
       match s.cooldown_triggered_at with
       | some t => (TOTAL_RESET_DURATION_NS - (now - t)) / 1000000
       | none => 0
     lifetime_operations := s.operations_count
     lifetime_cooldowns := s.cooldowns_triggered
     lifetime_resets := s.successful_resets
     failed_resets := s.failed_resets })

/-- `AdaptiveScheduler::record_operation`: append the record, add the weight,
bump the lifetime counter (the only write path besides the heartbeat). -/
def record_operation (now : Nat) (s : SchedulerState) (weight : Nat)
    (operationType : String) : SchedulerState :=
  let record : OperationRecord :=
    { timestamp := now, weight := weight, operation_type := operationType,
      elapsed_since_window_start_ns := now - s.window_start }
  { s with operations := s.operations ++ [record],
           total_weight_used := s.total_weight_used + weight,
           operations_count := s.operations_count + 1 }

/-! ## Data quality + pre-trade validation gate
(`core/integration/{mod,data_quality,pre_trade_validator}.rs`)

`f64` fields are exact rationals; the decimal literals appearing in the
checks (`0.99`, `0.5`, `50.0`, …) are modelled by the rationals they denote
(their f64 values differ by under one ulp, far from every reachable
comparison).  In the rational model every value is finite, so the
`price.is_finite()` conjunct of `check_price_validity` is identically true.
The human-readable `message`/`reason` strings (which format floats) are not
modelled. -/

structure UnifiedMarketData where
  symbol : String
  price : ℚ
  mark_price : ℚ
  index_price : ℚ
  volume_24h : ℚ
  volume_1h : ℚ
  liquidity_score : ℚ
  best_bid : ℚ
  best_ask : ℚ
  bid_volume : ℚ
  ask_volume : ℚ
  order_book_imbalance : ℚ
  funding_rate : ℚ
  is_new_listing : Bool
  is_delisted : Bool
  data_freshness_ms : Nat
  source_count : Nat
  data_quality_score : ℚ
  completeness : ℚ
deriving DecidableEq

/-- `UnifiedMarketData::spread_bps`. -/
def UnifiedMarketData.spread_bps (d : UnifiedMarketData) : ℚ :=
  if d.price = 0 then 9999
  else (d.best_ask - d.best_bid) / d.price * 10000

/-- `UnifiedMarketData::liquidity_adequate`. -/
def UnifiedMarketData.liquidity_adequate (d : UnifiedMarketData) : Bool :=
  decide ((1 : ℚ) / 2 < d.liquidity_score) && decide ((10000 : ℚ) < d.bid_volume + d.ask_volume)

/-- `enum QualityLevel`. -/
inductive QualityLevel where
  | critical
  | important
  | optionalCheck
deriving DecidableEq

/-- `struct QualityCheck` (minus the float-formatting `message`). -/
structure QualityCheck where
  name : String
  level : QualityLevel
  passed : Bool
  score : ℚ
deriving DecidableEq

/-- `DataQualityManager::new()` sets `max_staleness_ms: 5000`. -/
def max_staleness_ms : Nat := 5000

def DataQualityManager.check_price_validity (d : UnifiedMarketData) : QualityCheck :=
  let passed := decide (0 < d.price)
  { name := "Price Validity", level := .critical, passed := passed,
    score := if passed then 1 else 0 }

def DataQualityManager.check_data_freshness (d : UnifiedMarketData) : QualityCheck :=
  let passed := decide (d.data_freshness_ms < max_staleness_ms)
  { name := "Data Freshness", level := .critical, passed := passed,
    score := if passed then 1 else 0 }

def DataQualityManager.check_completeness (d : UnifiedMarketData) : QualityCheck :=
  let passed := decide ((99 : ℚ) / 100 < d.completeness)
  { name := "Data Completeness", level := .critical, passed := passed,
    score := d.completeness }

def DataQualityManager.check_not_delisted (d : UnifiedMarketData) : QualityCheck :=
  let passed := !d.is_delisted
  { name := "Not Delisted", level := .critical, passed := passed,
    score := if passed then 1 else 0 }

def DataQualityManager.check_spread_reasonable (d : UnifiedMarketData) : QualityCheck :=
  let passed := decide (d.spread_bps < 50)
  { name := "Spread Reasonable", level := .important, passed := passed,
    score := if passed then 1 else 1 / 2 }

def DataQualityManager.check_volume_present (d : UnifiedMarketData) : QualityCheck :=
  let passed := decide ((0 : ℚ) < d.volume_24h)
  { name := "Volume Present", level := .important, passed := passed,
    score := if passed then 1 else 0 }

def DataQualityManager.check_liquidity_adequate (d : UnifiedMarketData) : QualityCheck :=
  let passed := d.liquidity_adequate
  { name := "Liquidity Adequate", level := .important, passed := passed,
    score := d.liquidity_score }

def DataQualityManager.check_funding_rate_present (d : UnifiedMarketData) : QualityCheck :=
  let passed := decide (d.funding_rate ≠ 0)
  { name := "Funding Rate", level := .optionalCheck, passed := passed,
    score := if passed then 1 else 1 / 2 }

def DataQualityManager.check_mark_price_present (d : UnifiedMarketData) : QualityCheck :=
  let passed := decide (0 < d.mark_price)
  { name := "Mark Price", level := .optionalCheck, passed := passed,
    score := if passed then 1 else 1 / 2 }

/-- `DataQualityManager::validate`: the fixed list of 4 CRITICAL, 3
IMPORTANT, 2 OPTIONAL checks, in source order. -/
def DataQualityManager.validate (d : UnifiedMarketData) : List QualityCheck :=
  [DataQualityManager.check_price_validity d,
   DataQualityManager.check_data_freshness d,
   DataQualityManager.check_completeness d,
   DataQualityManager.check_not_delisted d,
   DataQualityManager.check_spread_reasonable d,
   DataQualityManager.check_volume_present d,
   DataQualityManager.check_liquidity_adequate d,
   DataQualityManager.check_funding_rate_present d,
   DataQualityManager.check_mark_price_present d]

/-- `DataQualityManager::is_valid`: all CRITICAL checks pass, and when there
are IMPORTANT checks their pass rate is not below 0.8. -/
def DataQualityManager.is_valid (checks : List QualityCheck) : Bool :=
  let criticalPass :=
    (checks.filter (fun c => decide (c.level = QualityLevel.critical))).all (fun c => c.passed)
  if !criticalPass then false
  else
    let importantChecks := checks.filter (fun c => decide (c.level = QualityLevel.important))
    if importantChecks.isEmpty then true
    else
      let importantPassRate : ℚ :=
        ((importantChecks.filter (fun c => c.passed)).length : ℚ) /
          (importantChecks.length : ℚ)
      if importantPassRate < (4 : ℚ) / 5 then false else true

/-- `DataQualityManager::get_overall_score`. -/
def DataQualityManager.get_overall_score (checks : List QualityCheck) : ℚ :=
  if checks.isEmpty then 0
  else (checks.map (fun c => c.score)).sum / (checks.length : ℚ)

/-- `enum ValidationLayer`. -/
inductive ValidationLayer where
  | dataQuality
  | marketConditions
  | riskLimits
  | regulatory
  | confidence
deriving DecidableEq

/-- `struct ValidationResult` (minus the float-formatting `reason`). -/
structure ValidationResult where
  layer : ValidationLayer
  passed : Bool
  score : ℚ
deriving DecidableEq

/-- `struct TradeContext`. -/
structure TradeContext where
  market_data : UnifiedMarketData
  account_balance : ℚ
  open_positions : List String
  daily_pnl : ℚ
  confidence_score : ℚ
deriving DecidableEq

/-- `PreTradeValidator::new()` constants: `min_confidence 0.75`,
`max_spread_bps 50.0`, `min_liquidity_usd 10000.0`. -/
def min_confidence : ℚ := 3 / 4

def max_spread_bps : ℚ := 50

def min_liquidity_usd : ℚ := 10000

/-- `PreTradeValidator::validate_data_quality`. -/
def PreTradeValidator.validate_data_quality (ctx : TradeContext) : ValidationResult :=
  let checks := DataQualityManager.validate ctx.market_data
  { layer := .dataQuality, passed := DataQualityManager.is_valid checks,
    score := DataQualityManager.get_overall_score checks }

/-- `PreTradeValidator::validate_market_conditions`. -/
def PreTradeValidator.validate_market_conditions (ctx : TradeContext) : ValidationResult :=
  let d := ctx.market_data
  let spreadOk := decide (d.spread_bps < max_spread_bps)
  let liquidityOk := decide (min_liquidity_usd < d.bid_volume + d.ask_volume)
  let volumeOk := decide ((1000 : ℚ) < d.volume_24h)
  let passed := spreadOk && liquidityOk && volumeOk
  { layer := .marketConditions, passed := passed,
    score := if passed then 1 else 1 / 2 }

/-- `PreTradeValidator::validate_risk_limits`; `0.05` is modelled as 1/20. -/
def PreTradeValidator.validate_risk_limits (ctx : TradeContext) : ValidationResult :=
  let balanceOk := decide ((10 : ℚ) < ctx.account_balance)
  let positionsOk := decide (ctx.open_positions.length < 3)
  let dailyLossOk := decide (-(ctx.account_balance * (1 / 20)) < ctx.daily_pnl)
  let passed := balanceOk && positionsOk && dailyLossOk
  { layer := .riskLimits, passed := passed, score := if passed then 1 else 0 }

/-- `PreTradeValidator::validate_regulatory` (`trading_hours` is the
constant `true`: crypto trades 24/7). -/
def PreTradeValidator.validate_regulatory (ctx : TradeContext) : ValidationResult :=
  let notDelisted := !ctx.market_data.is_delisted
  let passed := notDelisted && true
  { layer := .regulatory, passed := passed, score := if passed then 1 else 0 }

/-- `PreTradeValidator::validate_confidence`. -/
def PreTradeValidator.validate_confidence (ctx : TradeContext) : ValidationResult :=
  { layer := .confidence, passed := decide (min_confidence ≤ ctx.confidence_score),
    score := ctx.confidence_score }

/-- `PreTradeValidator::validate`: the five layers in source order. -/
def PreTradeValidator.validate (ctx : TradeContext) : List ValidationResult :=
  [PreTradeValidator.validate_data_quality ctx,
   PreTradeValidator.validate_market_conditions ctx,
   PreTradeValidator.validate_risk_limits ctx,
   PreTradeValidator.validate_regulatory ctx,
   PreTradeValidator.validate_confidence ctx]

/-- `PreTradeValidator::can_trade`: ALL layers must pass. -/
def PreTradeValidator.can_trade (results : List ValidationResult) : Bool :=
  results.all (fun r => r.passed)

/-! ## Adaptive parameter optimizer (`core/adaptive_optimizer.rs`)

`f64` parameters and metrics are exact rationals; the decimal multipliers
(`0.8`, `1.2`, …) are modelled by the rationals they denote.  A Rust
`(x as f64 * c) as u64` (or `as usize`) is `⌊x * c⌋₊`: on the magnitudes the
optimizer reaches the f64 product is within one ulp of the exact product and
never within an ulp of an integer boundary, so the truncations agree. -/

/-- `struct SafetyBounds`. -/
structure SafetyBounds where
  min_capacity_percent : ℚ
  max_capacity_percent : ℚ
  min_throttle_multiplier : ℚ
  max_throttle_multiplier : ℚ
  min_scan_interval_secs : Nat
  max_scan_interval_secs : Nat
  min_batch_size : Nat
  max_batch_size : Nat
deriving DecidableEq

/-- `SafetyBounds::default()`. -/
def defaultSafetyBounds : SafetyBounds :=
  { min_capacity_percent := 3 / 5
    max_capacity_percent := 19 / 20
    min_throttle_multiplier := 1 / 10
    max_throttle_multiplier := 1
    min_scan_interval_secs := 300
    max_scan_interval_secs := 7200
    min_batch_size := 5
    max_batch_size := 50 }

/-- `struct PerformanceMetrics`. -/
structure PerformanceMetrics where
  timestamp : Nat
  successful_operations : Nat
  failed_operations : Nat
  accuracy_rate : ℚ
  api_errors : Nat
  rate_limit_hits : Nat
  timeout_count : Nat
  reliability_score : ℚ
  avg_response_time_ms : ℚ
  p95_response_time_ms : ℚ
  throughput_per_minute : ℚ
  capacity_usage_percent : ℚ
  queue_depth : Nat
  memory_usage_mb : ℚ
  trade_execution_success_rate : ℚ
  data_freshness_score : ℚ
  overall_satisfaction : ℚ
deriving DecidableEq

/-- `struct DynamicParameters`. -/
structure DynamicParameters where
  capacity_target : ℚ
  throttle_threshold : ℚ
  recovery_threshold : ℚ
  scan_interval_secs : Nat
  batch_size : Nat
  priority_boost : ℚ
  last_updated : Nat
  update_reason : String
  confidence_score : ℚ
deriving DecidableEq

/-- `DynamicParameters::default()` at clock time 0. -/
def defaultDynamicParameters : DynamicParameters :=
  { capacity_target := 3 / 4
    throttle_threshold := 4 / 5
    recovery_threshold := 3 / 5
    scan_interval_secs := 3600
    batch_size := 20
    priority_boost := 1
    last_updated := 0
    update_reason := "Initial defaults"
    confidence_score := 1 / 2 }

/-- `struct PerformanceSnapshot`. -/
structure PerformanceSnapshot where
  metrics : PerformanceMetrics
  parameters : DynamicParameters
deriving DecidableEq

/-- `struct OptimizerStats`. -/
structure OptimizerStats where
  total_adjustments : Nat
  successful_adjustments : Nat
  reverted_adjustments : Nat
  current_confidence : ℚ
  avg_accuracy_improvement : ℚ
  avg_reliability_improvement : ℚ
  time_since_last_adjustment_secs : Nat
  safety_bounds_hits : Nat
deriving DecidableEq

/-- The stats `AdaptiveOptimizer::new` starts with. -/
def initialOptimizerStats : OptimizerStats :=
  { total_adjustments := 0
    successful_adjustments := 0
    reverted_adjustments := 0
    current_confidence := 1 / 2
    avg_accuracy_improvement := 0
    avg_reliability_improvement := 0
    time_since_last_adjustment_secs := 0
    safety_bounds_hits := 0 }

/-- `struct PerformanceTrend` (`#[derive(Default)]`: all false). -/
structure PerformanceTrend where
  accuracy_improving : Bool
  reliability_improving : Bool
  performance_stable : Bool
  capacity_stable : Bool
deriving DecidableEq

def defaultPerformanceTrend : PerformanceTrend :=
  ⟨false, false, false, false⟩

/-- `AdaptiveOptimizer::calculate_trend`: over the last 10 snapshots
(newest first), count adjacent pairs (`windows(2)`, modelled by zipping the
list with its tail). -/
def calculate_trend (history : List PerformanceSnapshot) : PerformanceTrend :=
  if history.length < 10 then defaultPerformanceTrend
  else
    let recent := history.reverse.take 10
    let pairs := recent.zip recent.tail
    { accuracy_improving :=
        decide (5 < (pairs.filter (fun p =>
          decide (p.2.metrics.accuracy_rate < p.1.metrics.accuracy_rate))).length)
      reliability_improving :=
        decide (5 < (pairs.filter (fun p =>
          decide (p.2.metrics.reliability_score < p.1.metrics.reliability_score))).length)
      performance_stable :=
        decide (7 < (pairs.filter (fun p =>
          decide (|p.1.metrics.avg_response_time_ms - p.2.metrics.avg_response_time_ms| <
            50))).length)
      capacity_stable :=
        decide (7 < (pairs.filter (fun p =>
          decide (|p.1.metrics.capacity_usage_percent - p.2.metrics.capacity_usage_percent| <
            (1 : ℚ) / 10))).length) }

/-- `AdaptiveOptimizer::calculate_confidence`. -/
def calculate_confidence (metrics : PerformanceMetrics) (trend : PerformanceTrend) : ℚ :=
  let confidence : ℚ := 1 / 2
  let totalOps := metrics.successful_operations + metrics.failed_operations
  let confidence :=
    if 1000 < totalOps then confidence + 2 / 10
    else if 100 < totalOps then confidence + 1 / 10
    else confidence
  let confidence :=
    if trend.performance_stable && trend.capacity_stable then confidence + 2 / 10
    else confidence
  let confidence :=
    if (19 : ℚ) / 20 < metrics.reliability_score then confidence + 1 / 10
    else confidence
  min confidence 1

/-- `AdaptiveOptimizer::within_safety_bounds`: capacity target, scan
interval and batch size inside their bounds (the throttle multiplier bounds
are not consulted here, exactly as in the source). -/
def within_safety_bounds (params : DynamicParameters) (bounds : SafetyBounds) : Bool :=
  decide (bounds.min_capacity_percent ≤ params.capacity_target) &&
  decide (params.capacity_target ≤ bounds.max_capacity_percent) &&
  decide (bounds.min_scan_interval_secs ≤ params.scan_interval_secs) &&
  decide (params.scan_interval_secs ≤ bounds.max_scan_interval_secs) &&
  decide (bounds.min_batch_size ≤ params.batch_size) &&
  decide (params.batch_size ≤ bounds.max_batch_size)

/-- The five rule blocks of `analyze_and_optimize` (lines 310–395): build the
proposed parameters, the `adjusted` flag and the reason tags. -/
def proposeAdjustments (metrics : PerformanceMetrics) (params : DynamicParameters)
    (bounds : SafetyBounds) (trend : PerformanceTrend) :
    DynamicParameters × Bool × List String :=
  let p := params
  let adjusted := false
  let reasons : List String := []
  -- 1. ACCURACY OPTIMIZATION
  let step1 :=
    if metrics.accuracy_rate < (19 : ℚ) / 20 ∧ 10 < metrics.failed_operations then
      let p := { p with batch_size := max (⌊(p.batch_size : ℚ) * (8 / 10)⌋₊) bounds.min_batch_size }
      let newScan := min (⌊(p.scan_interval_secs : ℚ) * (12 / 10)⌋₊) bounds.max_scan_interval_secs
      let p := { p with scan_interval_secs := newScan }
      (p, true, reasons ++ [("accuracy_low")])
    else if (99 : ℚ) / 100 < metrics.accuracy_rate ∧ trend.accuracy_improving = true then
      let p := { p with batch_size := min (⌊(p.batch_size : ℚ) * (11 / 10)⌋₊) bounds.max_batch_size }
      let newScan := max (⌊(p.scan_interval_secs : ℚ) * (9 / 10)⌋₊) bounds.min_scan_interval_secs
      let p := { p with scan_interval_secs := newScan }
      (p, true, reasons ++ [("accuracy_excellent")])
    else (p, adjusted, reasons)
  let p := step1.1; let adjusted := step1.2.1; let reasons := step1.2.2
  -- 2. RELIABILITY OPTIMIZATION
  let step2 :=
    if 0 < metrics.rate_limit_hits ∨ 5 < metrics.api_errors then
      let p := { p with capacity_target := max (p.capacity_target * (85 / 100)) bounds.min_capacity_percent }
      let p := { p with throttle_threshold := p.throttle_threshold * (9 / 10) }
      let p := { p with batch_size := max (⌊(p.batch_size : ℚ) * (75 / 100)⌋₊) bounds.min_batch_size }
      (p, true, reasons ++ [("reliability_issues")])
    else if (98 : ℚ) / 100 < metrics.reliability_score ∧ metrics.rate_limit_hits = 0 then
      let p := { p with capacity_target := min (p.capacity_target * (105 / 100)) bounds.max_capacity_percent }
      let p := { p with throttle_threshold := min (p.throttle_threshold * (105 / 100)) ((19 : ℚ) / 20) }
      (p, true, reasons ++ [("reliability_excellent")])
    else (p, adjusted, reasons)
  let p := step2.1; let adjusted := step2.2.1; let reasons := step2.2.2
  -- 3. PERFORMANCE OPTIMIZATION
  let step3 :=
    if (500 : ℚ) < metrics.avg_response_time_ms then
      let p := { p with batch_size := max (⌊(p.batch_size : ℚ) * (9 / 10)⌋₊) bounds.min_batch_size }
      let p := { p with capacity_target := p.capacity_target * (95 / 100) }
      (p, true, reasons ++ [("performance_slow")])
    else if metrics.avg_response_time_ms < (100 : ℚ) ∧ trend.performance_stable = true then
      let p := { p with batch_size := min (⌊(p.batch_size : ℚ) * (105 / 100)⌋₊) bounds.max_batch_size }
      (p, true, reasons ++ [("performance_fast")])
    else (p, adjusted, reasons)
  let p := step3.1; let adjusted := step3.2.1; let reasons := step3.2.2
  -- 4. CAPACITY OPTIMIZATION
  let step4 :=
    if (85 : ℚ) / 100 < metrics.capacity_usage_percent then
      let p := { p with throttle_threshold := metrics.capacity_usage_percent - 10 / 100 }
      let p := { p with recovery_threshold := p.throttle_threshold - 15 / 100 }
      let newScan := min (⌊(p.scan_interval_secs : ℚ) * (13 / 10)⌋₊) bounds.max_scan_interval_secs
      let p := { p with scan_interval_secs := newScan }
      (p, true, reasons ++ [("capacity_high")])
    else if metrics.capacity_usage_percent < (40 : ℚ) / 100 ∧ trend.capacity_stable = true then
      let p := { p with throttle_threshold := min (p.throttle_threshold * (110 / 100)) ((9 : ℚ) / 10) }
      let newScan := max (⌊(p.scan_interval_secs : ℚ) * (85 / 100)⌋₊) bounds.min_scan_interval_secs
      let p := { p with scan_interval_secs := newScan }
      (p, true, reasons ++ [("capacity_low")])
    else (p, adjusted, reasons)
  let p := step4.1; let adjusted := step4.2.1; let reasons := step4.2.2
  -- 5. USER SATISFACTION OPTIMIZATION
  if metrics.overall_satisfaction < (80 : ℚ) / 100 then
    let p := { p with priority_boost := 3 / 2 }
    let p := { p with scan_interval_secs := ⌊(p.scan_interval_secs : ℚ) * (9 / 10)⌋₊ }
    let p := { p with batch_size := ⌊(p.batch_size : ℚ) * (9 / 10)⌋₊ }
    (p, true, reasons ++ [("satisfaction_low")])
  else if (95 : ℚ) / 100 < metrics.overall_satisfaction then
    ({ p with priority_boost := 1 }, adjusted, reasons)
  else (p, adjusted, reasons)

/-- `AdaptiveOptimizer::analyze_and_optimize`: evaluate the five rule blocks
on the metric snapshot; if anything was adjusted, stamp the metadata and
accept the proposal only `if within_safety_bounds`, else return `None`
("reverting" — with no counter update anywhere). -/
def analyze_and_optimize (now : Nat) (metrics : PerformanceMetrics)
    (currentParams : DynamicParameters) (bounds : SafetyBounds)
    (history : List PerformanceSnapshot) : Option DynamicParameters :=
  let trend := calculate_trend history
  let pr := proposeAdjustments metrics currentParams bounds trend
  if pr.2.1 then
    let newParams :=
      { pr.1 with last_updated := now,
                  update_reason := String.intercalate (", ") pr.2.2,
                  confidence_score := calculate_confidence metrics trend }
    if within_safety_bounds newParams bounds then some newParams else none
  else none

/-- One iteration of the `start_optimization` loop: on `Some`, snapshot the
old state into the bounded history and install the new parameters, bumping
`total_adjustments`; on `None`, leave the parameters and history alone and
only age `time_since_last_adjustment`.  Neither branch touches
`safety_bounds_hits`. -/
def optimizerTick (now : Nat) (metrics : PerformanceMetrics)
    (params : DynamicParameters) (bounds : SafetyBounds)
    (history : List PerformanceSnapshot) (stats : OptimizerStats) :
    DynamicParameters × List PerformanceSnapshot × OptimizerStats :=
  match analyze_and_optimize now metrics params bounds history with
  | some newParams =>
    let history := history ++ [{ metrics := metrics, parameters := params }]
    let history := if 1000 < history.length then history.tail else history
    (newParams, history,
     { stats with total_adjustments := stats.total_adjustments + 1,
                  time_since_last_adjustment_secs := 0 })
  | none =>
    (params, history,
     { stats with time_since_last_adjustment_secs :=
         stats.time_since_last_adjustment_secs + 60 })

/-- Each priority queue holds only requests enqueued with that priority
(`request_permit` pushes a request onto `queues[its own priority]`). -/
def WellQueued (s : ControllerState) : Prop :=
  (∀ r ∈ s.queueCritical, r.priority = Priority.critical) ∧
  (∀ r ∈ s.queueHigh, r.priority = Priority.high) ∧
  (∀ r ∈ s.queueMedium, r.priority = Priority.medium) ∧
  (∀ r ∈ s.queueLow, r.priority = Priority.low)

/-- A concrete controller state with one CRITICAL and one HIGH waiter. -/
def c5WitnessState : ControllerState :=
  { initialControllerState with
      queueCritical := [⟨Priority.critical, OperationCategory.trading, 5, ("a"), 0⟩],
      queueHigh := [⟨Priority.high, OperationCategory.scanning, 5, ("b"), 0⟩] }

/-- A limiter state one saturating request away from recovery. -/
def c4WitnessState : LimiterState :=
  { now := 1000, request_history := [⟨0, 500, ("a")⟩], circuit_breaker_until := none,
    total_requests := 1, total_weight_used := 500, rate_limit_violations := 0 }

/-- The number of IMPORTANT sub-checks that pass on a market-data value
(out of the three produced by `DataQualityManager::validate`). -/
def importantPassCount (d : UnifiedMarketData) : Nat :=
  ((DataQualityManager.validate d).filter
    (fun c => decide (c.level = QualityLevel.important) && c.passed)).length

/-- A scheduler state exactly 31 s into its cooldown. -/
def c7WitnessState : SchedulerState :=
  { state := CooldownState.cooldown, window_start := 0, cooldown_triggered_at := some 0,
    last_reset := none, operations := [], total_weight_used := 0, max_weight := 800,
    operations_count := 0, cooldowns_triggered := 1, successful_resets := 0,
    failed_resets := 0 }

/-- A scheduler mid-cooldown, for the C9 witness. -/
def c9CoolState : SchedulerState :=
  { initialSchedulerState 800 with
      state := CooldownState.cooldown, cooldown_triggered_at := some 100 }

/-- A scheduler under heavy throttle, for the C9 witness. -/
def c9HeavyState : SchedulerState :=
  { initialSchedulerState 800 with
      state := CooldownState.heavyThrottle, total_weight_used := 600 }

/-- The metric snapshot driving the C8 failing input: nothing but
satisfaction (0.5 < 0.80) triggers an adjustment. -/
def c8Metrics : PerformanceMetrics :=
  { timestamp := 0, successful_operations := 0, failed_operations := 0,
    accuracy_rate := 98 / 100, api_errors := 0, rate_limit_hits := 0,
    timeout_count := 0, reliability_score := 1 / 2, avg_response_time_ms := 200,
    p95_response_time_ms := 300, throughput_per_minute := 10,
    capacity_usage_percent := 1 / 2, queue_depth := 0, memory_usage_mb := 0,
    trade_execution_success_rate := 1, data_freshness_score := 1,
    overall_satisfaction := 1 / 2 }

/-- Parameters already at the minimum scan interval. -/
def c8Params : DynamicParameters :=
  { defaultDynamicParameters with scan_interval_secs := 300 }

/-- What the satisfaction rule proposes at `c8Metrics`/`c8Params`:
`scan_interval = ⌊300 × 0.9⌋ = 270 s`, below the 300 s lower bound. -/
def c8Proposed : DynamicParameters :=
  { c8Params with
      priority_boost := 3 / 2, scan_interval_secs := 270, batch_size := 18 }

/-! ## Theorems -/

/-- C1 (code bug): the cheapest event sequence already breaks the usage
invariant.  On a fresh controller, `request_permit(10, HIGH, TRADING, op)`
takes the fast path (`fastPathOk` holds), `grant_permit` issues the permit
without adding the weight to `current_usage` or `category_usage`, and
`permit.complete` (`record_request`) pushes the `RequestRecord` without
adding it either: afterwards the window holds records of total weight 10
while `current_usage` and every `category_usage` entry are still 0, so
`current_usage ≠ Σ weights` — the code never adds fast-path weight to the
usage counters that the monitor's eviction later subtracts from. -/
theorem c1_usage_invariant_fails_in_code :
    fastPathOk initialControllerState 10 Priority.high OperationCategory.trading = true ∧
    (let g := grant_permit initialControllerState 10 Priority.high
        OperationCategory.trading ("op") 0 0
     let s2 := record_request g.1 g.2 5 100
     sumWeights s2.requests = 10 ∧ s2.currentUsage = 0 ∧
       s2.categoryUsage.total = 0) := by
  constructor
  · decide
  · refine ⟨?_, ?_, ?_⟩ <;> decide

/-- Helper for C2/C5: the drain loop of `process_queues` grants a request
only when the projected usage stays within `TOTAL_CAPACITY`, so it preserves
`usage ≤ TOTAL_CAPACITY`. -/
theorem drainLoop_usage_le (n : Nat) (q : List QueuedRequest) (u : Nat)
    (cu : CategoryUsage) (h : u ≤ TOTAL_CAPACITY) :
    (drainLoop n q u cu).2.1 ≤ TOTAL_CAPACITY := by
  induction n generalizing q u cu with
  | zero => simpa [drainLoop] using h
  | succ n ih =>
    cases q with
    | nil => simpa [drainLoop] using h
    | cons r rest =>
      simp only [drainLoop]
      split
      · split
        · exact ih rest (u + r.weight) (cu.add r.category r.weight) (by assumption)
        · simpa using h
      · simpa using h

/-- C2 counterexample: the claim is false on the SLA-expiry grant path.  With
`current_usage` already at the full capacity 800, a queued CRITICAL request
of weight 5 whose SLA expires unnotified is still granted a permit
(`awaitOutcome … false` returns `some`), although `800 + 5` exceeds
`TOTAL_CAPACITY`: that grant path performs no capacity check at all. -/
theorem c2_sla_expiry_ignores_capacity_cex :
    (((awaitOutcome { initialControllerState with currentUsage := 800 } 5
        Priority.critical OperationCategory.trading ("op") false 200 0).2).isSome = true) ∧
    TOTAL_CAPACITY <
      { initialControllerState with currentUsage := 800 : ControllerState }.currentUsage + 5 := by
  constructor
  · decide
  · decide

/-- C2 (amended): the capacity-checked grant paths.  (i) The fast path grants
only when `current_usage + weight ≤ 800`; (ii) for CRITICAL the fast-path
test degenerates to exactly that absolute-capacity check (the per-category
cap is bypassed); (iii) the monitor's queue drain (`process_queues`)
preserves `current_usage ≤ 800`, since every grant re-checks the projected
usage; but (iv) the grant issued to a CRITICAL request after SLA expiry is
unconditional, so the absolute cap does not bind on that path. -/
theorem c2_capacity_cap_amended :
    (∀ (s : ControllerState) (w : Nat) (p : Priority) (c : OperationCategory),
       fastPathOk s w p c = true → s.currentUsage + w ≤ TOTAL_CAPACITY) ∧
    (∀ (s : ControllerState) (w : Nat) (c : OperationCategory),
       fastPathOk s w Priority.critical c = decide (s.currentUsage + w ≤ TOTAL_CAPACITY)) ∧
    (∀ s : ControllerState, s.currentUsage ≤ TOTAL_CAPACITY →
       (process_queues s).1.currentUsage ≤ TOTAL_CAPACITY) ∧
    (∀ (s : ControllerState) (w : Nat) (c : OperationCategory) (o : String) (qms h : Nat),
       ((awaitOutcome s w Priority.critical c o false qms h).2).isSome = true) := by
  refine ⟨?_, ?_, ?_, ?_⟩
  · intro s w p c h
    have h' := h
    simp only [fastPathOk, Bool.and_eq_true, decide_eq_true_eq] at h'
    exact h'.1
  · intro s w c
    simp [fastPathOk]
  · intro s h
    simp only [process_queues]
    exact drainLoop_usage_le _ _ _ _
      (drainLoop_usage_le _ _ _ _
        (drainLoop_usage_le _ _ _ _
          (drainLoop_usage_le _ _ _ _ h)))
  · intro s w c o qms h
    simp [awaitOutcome]

/-- Witness for the amended C2, at concrete inputs. -/
theorem c2_capacity_cap_amended_witness :
    initialControllerState.currentUsage + 10 ≤ TOTAL_CAPACITY ∧
    (process_queues initialControllerState).1.currentUsage ≤ TOTAL_CAPACITY :=
  ⟨c2_capacity_cap_amended.1 initialControllerState 10 Priority.high
      OperationCategory.trading (by decide),
   c2_capacity_cap_amended.2.2.1 initialControllerState (by decide)⟩

/-- C3 (confirmed): on SLA expiry (`notified = false`), `sla_violations` is
always incremented, a CRITICAL waiter is granted a permit anyway, and every
non-CRITICAL waiter gets the `SlaTimeout` error (`none`); moreover a CRITICAL
`request_permit` call returns a permit on every path — fast path, notified
queue wait, and expired SLA — so it never fails with `SlaTimeout`. -/
theorem c3_critical_never_sla_timeout :
    ∀ (s : ControllerState) (w : Nat) (c : OperationCategory) (o : String) (qms h : Nat),
      (((awaitOutcome s w Priority.critical c o false qms h).2).isSome = true ∧
        (awaitOutcome s w Priority.critical c o false qms h).1.slaViolations =
          s.slaViolations + 1) ∧
      (∀ p : Priority, p ≠ Priority.critical →
        (awaitOutcome s w p c o false qms h).2 = none ∧
        (awaitOutcome s w p c o false qms h).1.slaViolations = s.slaViolations + 1) ∧
      (∀ (now : Nat) (notified : Bool),
        ((request_permit s w Priority.critical c o now notified qms h).2).isSome = true) := by
  intro s w c o qms h
  refine ⟨⟨by simp [awaitOutcome], by simp [awaitOutcome, grant_permit]⟩, ?_, ?_⟩
  · intro p hp
    constructor
    · simp [awaitOutcome, hp]
    · simp [awaitOutcome, hp, grant_permit]
  · intro now notified
    by_cases hf : fastPathOk s w Priority.critical c = true
    · simp [request_permit, hf]
    · cases notified <;> simp [request_permit, hf, awaitOutcome]

/-- Witness for C3, at concrete inputs. -/
theorem c3_critical_never_sla_timeout_witness :
    (awaitOutcome initialControllerState 5 Priority.low OperationCategory.scanning
        ("op") false 700 3).2 = none ∧
    (awaitOutcome initialControllerState 5 Priority.low OperationCategory.scanning
        ("op") false 700 3).1.slaViolations = initialControllerState.slaViolations + 1 :=
  (c3_critical_never_sla_timeout initialControllerState 5 OperationCategory.scanning
      ("op") 700 3).2.1 Priority.low (by decide)

/-- Helper for C5: the drain loop grants at most `n` requests. -/
theorem drainLoop_granted_length (n : Nat) (q : List QueuedRequest) (u : Nat)
    (cu : CategoryUsage) : (drainLoop n q u cu).2.2.2.length ≤ n := by
  induction n generalizing q u cu with
  | zero => simp [drainLoop]
  | succ n ih =>
    cases q with
    | nil => simp [drainLoop]
    | cons r rest =>
      simp only [drainLoop]
      split
      · split
        · simpa using Nat.succ_le_succ (ih rest _ _)
        · simp
      · simp

/-- Helper for C5: every granted request came from the drained queue. -/
theorem drainLoop_granted_mem (n : Nat) (q : List QueuedRequest) (u : Nat)
    (cu : CategoryUsage) : ∀ r ∈ (drainLoop n q u cu).2.2.2, r ∈ q := by
  induction n generalizing q u cu with
  | zero => simp [drainLoop]
  | succ n ih =>
    cases q with
    | nil => simp [drainLoop]
    | cons r rest =>
      simp only [drainLoop]
      split
      · split
        · intro x hx
          simp only [List.mem_cons] at hx ⊢
          rcases hx with h | h
          · exact Or.inl h
          · exact Or.inr (ih rest _ _ x h)
        · simp
      · simp

/-- Helper for C5: the grant log of `process_queues` is the concatenation of
four per-queue segments, each drawn from its own queue and bounded by the
tick's `max_to_process` budget. -/
theorem process_queues_log (s : ControllerState) :
    ∃ g0 g1 g2 g3 : List QueuedRequest,
      (process_queues s).2 = g0 ++ g1 ++ g2 ++ g3 ∧
      (∀ r ∈ g0, r ∈ s.queueCritical) ∧ (∀ r ∈ g1, r ∈ s.queueHigh) ∧
      (∀ r ∈ g2, r ∈ s.queueMedium) ∧ (∀ r ∈ g3, r ∈ s.queueLow) ∧
      g0.length ≤ max_to_process s.throttleState ∧
      g1.length ≤ max_to_process s.throttleState ∧
      g2.length ≤ max_to_process s.throttleState ∧
      g3.length ≤ max_to_process s.throttleState := by
  refine ⟨_, _, _, _, rfl, ?_, ?_, ?_, ?_, ?_, ?_, ?_, ?_⟩
  · exact drainLoop_granted_mem _ _ _ _
  · exact drainLoop_granted_mem _ _ _ _
  · exact drainLoop_granted_mem _ _ _ _
  · exact drainLoop_granted_mem _ _ _ _
  · exact drainLoop_granted_length _ _ _ _
  · exact drainLoop_granted_length _ _ _ _
  · exact drainLoop_granted_length _ _ _ _
  · exact drainLoop_granted_length _ _ _ _

/-- Helper for C5: a four-segment concatenation whose segments carry the
priorities CRITICAL, HIGH, MEDIUM, LOW in that order is sorted by rank. -/
theorem pairwise_rank_append4 (g0 g1 g2 g3 : List QueuedRequest)
    (h0 : ∀ r ∈ g0, r.priority = Priority.critical)
    (h1 : ∀ r ∈ g1, r.priority = Priority.high)
    (h2 : ∀ r ∈ g2, r.priority = Priority.medium)
    (h3 : ∀ r ∈ g3, r.priority = Priority.low) :
    (g0 ++ g1 ++ g2 ++ g3).Pairwise
      (fun a b => a.priority.rank ≤ b.priority.rank) := by
  have const : ∀ (g : List QueuedRequest) (p : Priority), (∀ r ∈ g, r.priority = p) →
      g.Pairwise (fun a b => a.priority.rank ≤ b.priority.rank) := by
    intro g p hp
    refine List.pairwise_of_forall_mem_list ?_
    intro a ha b hb
    rw [hp a ha, hp b hb]
  rw [List.pairwise_append, List.pairwise_append, List.pairwise_append]
  refine ⟨⟨⟨const g0 _ h0, const g1 _ h1, ?_⟩, const g2 _ h2, ?_⟩, const g3 _ h3, ?_⟩
  · intro a ha b hb
    rw [h0 a ha, h1 b hb]
    decide
  · intro a ha b hb
    rcases List.mem_append.mp ha with h | h
    · rw [h0 a h, h2 b hb]; decide
    · rw [h1 a h, h2 b hb]; decide
  · intro a ha b hb
    rcases List.mem_append.mp ha with h | h
    · rcases List.mem_append.mp h with h' | h'
      · rw [h0 a h', h3 b hb]; decide
      · rw [h1 a h', h3 b hb]; decide
    · rw [h2 a h, h3 b hb]; decide

/-- Helper for C5: filtering a constant-priority segment by a different
priority gives nothing. -/
theorem filter_priority_nil (g : List QueuedRequest) (k p : Priority)
    (hk : ∀ r ∈ g, r.priority = k) (hne : k ≠ p) :
    g.filter (fun r => decide (r.priority = p)) = [] := by
  rw [List.filter_eq_nil_iff]
  intro a ha
  simp [hk a ha, hne]

/-- Helper for C5: in the four-segment grant log at most one segment matches
a given priority, so per-priority grant counts are bounded by the budget. -/
theorem filter_priority_append4 (g0 g1 g2 g3 : List QueuedRequest) (m : Nat)
    (h0 : ∀ r ∈ g0, r.priority = Priority.critical)
    (h1 : ∀ r ∈ g1, r.priority = Priority.high)
    (h2 : ∀ r ∈ g2, r.priority = Priority.medium)
    (h3 : ∀ r ∈ g3, r.priority = Priority.low)
    (l0 : g0.length ≤ m) (l1 : g1.length ≤ m) (l2 : g2.length ≤ m)
    (l3 : g3.length ≤ m) (p : Priority) :
    ((g0 ++ g1 ++ g2 ++ g3).filter (fun r => decide (r.priority = p))).length ≤ m := by
  rw [List.filter_append, List.filter_append, List.filter_append,
    List.length_append, List.length_append, List.length_append]
  have b0 := List.length_filter_le (fun r => decide (r.priority = p)) g0
  have b1 := List.length_filter_le (fun r => decide (r.priority = p)) g1
  have b2 := List.length_filter_le (fun r => decide (r.priority = p)) g2
  have b3 := List.length_filter_le (fun r => decide (r.priority = p)) g3
  cases p with
  | critical =>
    rw [filter_priority_nil g1 _ _ h1 (by decide), filter_priority_nil g2 _ _ h2 (by decide),
      filter_priority_nil g3 _ _ h3 (by decide)]
    simp only [List.length_nil]
    omega
  | high =>
    rw [filter_priority_nil g0 _ _ h0 (by decide), filter_priority_nil g2 _ _ h2 (by decide),
      filter_priority_nil g3 _ _ h3 (by decide)]
    simp only [List.length_nil]
    omega
  | medium =>
    rw [filter_priority_nil g0 _ _ h0 (by decide), filter_priority_nil g1 _ _ h1 (by decide),
      filter_priority_nil g3 _ _ h3 (by decide)]
    simp only [List.length_nil]
    omega
  | low =>
    rw [filter_priority_nil g0 _ _ h0 (by decide), filter_priority_nil g1 _ _ h1 (by decide),
      filter_priority_nil g2 _ _ h2 (by decide)]
    simp only [List.length_nil]
    omega

/-- C5 (confirmed): on every tick, `process_queues` drains the queues in the
strict priority order CRITICAL, HIGH, MEDIUM, LOW — the grant log is sorted
by priority rank — and grants at most `max_to_process` requests per priority
queue, where the budget is 10 / 5 / 2 / 1 in the NORMAL / MODERATE / HEAVY /
EMERGENCY throttle state. -/
theorem c5_strict_priority_bounded_drain :
    ∀ s : ControllerState, WellQueued s →
      ((process_queues s).2).Pairwise
        (fun a b => a.priority.rank ≤ b.priority.rank) ∧
      (∀ p : Priority,
        ((process_queues s).2.filter (fun r => decide (r.priority = p))).length ≤
          max_to_process s.throttleState) ∧
      (max_to_process .normal = 10 ∧ max_to_process .moderate = 5 ∧
        max_to_process .heavy = 2 ∧ max_to_process .emergency = 1) := by
  intro s hwq
  obtain ⟨hc, hh, hm, hl⟩ := hwq
  obtain ⟨g0, g1, g2, g3, hlog, m0, m1, m2, m3, l0, l1, l2, l3⟩ := process_queues_log s
  have p0 : ∀ r ∈ g0, r.priority = Priority.critical := fun r hr => hc r (m0 r hr)
  have p1 : ∀ r ∈ g1, r.priority = Priority.high := fun r hr => hh r (m1 r hr)
  have p2 : ∀ r ∈ g2, r.priority = Priority.medium := fun r hr => hm r (m2 r hr)
  have p3 : ∀ r ∈ g3, r.priority = Priority.low := fun r hr => hl r (m3 r hr)
  refine ⟨?_, ?_, by decide⟩
  · rw [hlog]
    exact pairwise_rank_append4 g0 g1 g2 g3 p0 p1 p2 p3
  · intro p
    rw [hlog]
    exact filter_priority_append4 g0 g1 g2 g3 _ p0 p1 p2 p3 l0 l1 l2 l3 p

/-- Witness for C5 at a concrete state. -/
theorem c5_strict_priority_bounded_drain_witness :
    ((process_queues c5WitnessState).2).Pairwise
      (fun a b => a.priority.rank ≤ b.priority.rank) :=
  (c5_strict_priority_bounded_drain c5WitnessState
    ⟨by decide, by decide, by decide, by decide⟩).1

/-- Helper for C4: a pointwise-stronger drop predicate leaves at most as
many elements. -/
theorem dropWhile_length_mono {α : Type} (p q : α → Bool)
    (hpq : ∀ a, p a = true → q a = true) :
    ∀ l : List α, (l.dropWhile q).length ≤ (l.dropWhile p).length := by
  intro l
  induction l with
  | nil => simp
  | cons a t ih =>
    by_cases hq : q a = true
    · by_cases hp : p a = true
      · rw [List.dropWhile_cons_of_pos hq, List.dropWhile_cons_of_pos hp]
        exact ih
      · rw [List.dropWhile_cons_of_pos hq, List.dropWhile_cons_of_neg (by simpa using hp)]
        calc (t.dropWhile q).length ≤ t.length := (List.dropWhile_sublist q).length_le
          _ ≤ (a :: t).length := by simp
    · have hp : ¬ p a = true := fun hpa => hq (hpq a hpa)
      rw [List.dropWhile_cons_of_neg (by simpa using hq),
        List.dropWhile_cons_of_neg (by simpa using hp)]

/-- Helper for C4: later cutoffs evict at least as much. -/
theorem clean_length_antitone (cfg : RateLimitConfig) (l : List RequestLog)
    (t t' : Nat) (h : t ≤ t') :
    (clean_old_requests cfg t' l).length ≤ (clean_old_requests cfg t l).length := by
  refine dropWhile_length_mono _ _ ?_ l
  intro a ha
  simp only [decide_eq_true_eq] at ha ⊢
  omega

/-- Helper for C4: `breakerWait` only advances the clock. -/
theorem breakerWait_now_le (s : LimiterState) : s.now ≤ (breakerWait s).now := by
  unfold breakerWait
  cases s.circuit_breaker_until with
  | none => exact Nat.le_refl _
  | some u =>
    by_cases h : s.now < u
    · simp [h]
      omega
    · simp [h]

/-- Helper for C4: `breakerWait` does not touch the history. -/
theorem breakerWait_history (s : LimiterState) :
    (breakerWait s).request_history = s.request_history := by
  unfold breakerWait
  cases s.circuit_breaker_until with
  | none => rfl
  | some u =>
    by_cases h : s.now < u
    · simp [h]
    · simp [h]

/-- Helper for C4: the window weight of an empty cleaned history is zero and,
conversely, a positive window weight needs a nonempty history. -/
theorem windowWeight_nil : windowWeight [] = 0 := rfl

/-- Helper for C4 (the interesting direction of claim C4): provided the
requested weight alone fits in the window (`w ≤ max_weight_per_window`) and
the history's timestamps are in the past, `acquire` returns a permit within
`|history| + 1` iterations — each violation wait strictly outlives the
oldest in-window record, so every retry evicts at least one record. -/
theorem acquire_grants_within_fuel :
    ∀ (n : Nat) (cfg : RateLimitConfig) (s : LimiterState) (w : Nat) (ep : String),
      w ≤ cfg.max_weight_per_window →
      (∀ r ∈ s.request_history, r.timestamp ≤ s.now) →
      (clean_old_requests cfg s.now s.request_history).length ≤ n →
      (acquire (n + 1) cfg s w ep).2 = true := by
  intro n
  induction n with
  | zero =>
    intro cfg s w ep hw hts hlen
    simp only [acquire]
    rw [breakerWait_history s]
    have hlen1 : (clean_old_requests cfg (breakerWait s).now s.request_history).length ≤ 0 :=
      Nat.le_trans (clean_length_antitone cfg _ _ _ (breakerWait_now_le s)) hlen
    have hnil : clean_old_requests cfg (breakerWait s).now s.request_history = [] :=
      List.length_eq_zero.mp (Nat.le_zero.mp hlen1)
    rw [hnil]
    have hcond : ¬ cfg.max_weight_per_window < windowWeight [] + w := by
      rw [windowWeight_nil]
      omega
    rw [if_neg hcond]
  | succ n ih =>
    intro cfg s w ep hw hts hlen
    simp only [acquire]
    rw [breakerWait_history s]
    have hn1 : s.now ≤ (breakerWait s).now := breakerWait_now_le s
    have hlen1 : (clean_old_requests cfg (breakerWait s).now s.request_history).length ≤ n + 1 :=
      Nat.le_trans (clean_length_antitone cfg _ _ _ hn1) hlen
    have hsub : ∀ r ∈ clean_old_requests cfg (breakerWait s).now s.request_history,
        r ∈ s.request_history := by
      intro r hr
      exact (List.dropWhile_sublist _).subset hr
    by_cases hviol : cfg.max_weight_per_window <
        windowWeight (clean_old_requests cfg (breakerWait s).now s.request_history) + w
    · rw [if_pos hviol]
      have hpos : 0 < windowWeight (clean_old_requests cfg (breakerWait s).now s.request_history) := by
        omega
      obtain ⟨o, t, hC⟩ : ∃ o t,
          clean_old_requests cfg (breakerWait s).now s.request_history = o :: t := by
        cases hne : clean_old_requests cfg (breakerWait s).now s.request_history with
        | nil =>
          rw [hne, windowWeight_nil] at hpos
          exact absurd hpos (by omega)
        | cons o t => exact ⟨o, t, rfl⟩
      rw [hC] at hlen1 hsub ⊢
      have homem : o ∈ s.request_history := hsub o (List.mem_cons_self o t)
      have hots1 : o.timestamp ≤ (breakerWait s).now := Nat.le_trans (hts o homem) hn1
      have hwait : o.timestamp <
          ((breakerWait s).now + calculate_wait_time cfg (breakerWait s).now (o :: t)) -
            cfg.windowDurationMs := by
        simp only [calculate_wait_time]
        by_cases he : (breakerWait s).now - o.timestamp < cfg.windowDurationMs
        · rw [if_pos he]
          omega
        · rw [if_neg he]
          omega
      have hlen2 : (clean_old_requests cfg
          ((breakerWait s).now + calculate_wait_time cfg (breakerWait s).now (o :: t))
          (o :: t)).length ≤ n := by
        unfold clean_old_requests
        rw [List.dropWhile_cons_of_pos (by simpa using hwait)]
        refine Nat.le_trans (List.dropWhile_sublist _).length_le ?_
        simp only [List.length_cons] at hlen1
        omega
      have hts2 : ∀ r ∈ o :: t,
          r.timestamp ≤ (breakerWait s).now +
            calculate_wait_time cfg (breakerWait s).now (o :: t) := by
        intro r hr
        exact Nat.le_trans (Nat.le_trans (hts r (hsub r hr)) hn1) (Nat.le_add_right _ _)
      exact ih cfg _ w ep hw hts2 hlen2
    · rw [if_neg hviol]

/-- C4 counterexample: the boundedness part of the claim is false.  With
`max_weight_per_window = 10` and an empty window, `acquire` for a request of
weight 20 can never grant: every iteration finds `0 + 20 > 10`, waits the
minimal 100 ms and re-enters with the window still empty, for every amount
of fuel. -/
theorem c4_unbounded_retry_cex :
    acquireNeverGrants { defaultRateLimitConfig with max_weight_per_window := 10 }
      { now := 0, request_history := [], circuit_breaker_until := none,
        total_requests := 0, total_weight_used := 0, rate_limit_violations := 0 } 20 ∧
    ({ defaultRateLimitConfig with max_weight_per_window := 10 :
        RateLimitConfig }).max_weight_per_window < 20 := by
  have key : ∀ (fuel : Nat) (s : LimiterState), s.request_history = [] →
      (acquire fuel { defaultRateLimitConfig with max_weight_per_window := 10 }
        s 20 ("ep")).2 = false := by
    intro fuel
    induction fuel with
    | zero => intro s hs; rfl
    | succ n ih =>
      intro s hs
      simp only [acquire]
      have hh : (breakerWait s).request_history = [] := by
        rw [breakerWait_history s, hs]
      rw [hh]
      have hclean : clean_old_requests
          { defaultRateLimitConfig with max_weight_per_window := 10 }
          (breakerWait s).now [] = [] := rfl
      rw [hclean]
      rw [if_pos (by rw [windowWeight_nil]; omega)]
      exact ih _ rfl
  exact ⟨fun fuel => key fuel _ rfl, by decide⟩

/-- C4 (amended): (i) with the timestamps in the past and the requested
weight itself within the window budget, `acquire` returns a permit after at
most `|history| + 1` iterations (the recursion is bounded; the caller never
sees a rate-limit or breaker failure, only waiting); (ii) the wait computed
for a violation is exactly `(oldest.timestamp + window_duration) − now` plus
the 100 ms slack; (iii) a violation iteration bumps the violation counter by
one, suspends for that wait and re-enters `acquire` from the start.  Without
the `weight ≤ max_weight_per_window` proviso the recursion is unbounded
(see the counterexample). -/
theorem c4_acquire_recovers_amended :
    (∀ (cfg : RateLimitConfig) (s : LimiterState) (w : Nat) (ep : String),
       w ≤ cfg.max_weight_per_window →
       (∀ r ∈ s.request_history, r.timestamp ≤ s.now) →
       (acquire (s.request_history.length + 1) cfg s w ep).2 = true) ∧
    (∀ (cfg : RateLimitConfig) (now : Nat) (o : RequestLog) (t : List RequestLog),
       o.timestamp ≤ now → now - o.timestamp ≤ cfg.windowDurationMs →
       calculate_wait_time cfg now (o :: t) =
         o.timestamp + cfg.windowDurationMs + 100 - now) ∧
    (∀ (fuel : Nat) (cfg : RateLimitConfig) (s : LimiterState) (w : Nat) (ep : String),
       s.circuit_breaker_until = none →
       cfg.max_weight_per_window <
         windowWeight (clean_old_requests cfg s.now s.request_history) + w →
       acquire (fuel + 1) cfg s w ep =
         acquire fuel cfg
           { s with request_history := clean_old_requests cfg s.now s.request_history,
                    rate_limit_violations := s.rate_limit_violations + 1,
                    now := s.now + calculate_wait_time cfg s.now
                      (clean_old_requests cfg s.now s.request_history) } w ep) := by
  refine ⟨?_, ?_, ?_⟩
  · intro cfg s w ep hw hts
    exact acquire_grants_within_fuel s.request_history.length cfg s w ep hw hts
      (Nat.le_trans (List.dropWhile_sublist _).length_le (Nat.le_refl _))
  · intro cfg now o t hle helapsed
    simp only [calculate_wait_time]
    by_cases he : now - o.timestamp < cfg.windowDurationMs
    · rw [if_pos he]
      omega
    · rw [if_neg he]
      omega
  · intro fuel cfg s w ep hb hviol
    simp only [acquire, breakerWait, hb]
    rw [if_pos hviol]

/-- Witness for the amended C4: from a window holding weight 500/800, a
request of weight 400 is granted within 2 iterations. -/
theorem c4_acquire_recovers_amended_witness :
    (acquire 2 defaultRateLimitConfig c4WitnessState 400 ("e")).2 = true :=
  c4_acquire_recovers_amended.1 defaultRateLimitConfig c4WitnessState 400 ("e")
    (by decide) (by decide)

set_option maxHeartbeats 2000000 in
/-- C6 (confirmed): `can_trade` holds iff every one of the five validation
layers passed; the Data Quality layer passes iff all four CRITICAL
sub-checks pass and at least 80% of the three IMPORTANT sub-checks pass; and
the CRITICAL sub-checks are exactly: price positive (finiteness is inherent
in the rational model), freshness strictly below 5000 ms, completeness above
0.99, and not delisted. -/
theorem c6_five_layer_gate :
    ∀ ctx : TradeContext,
      (PreTradeValidator.can_trade (PreTradeValidator.validate ctx) =
        ((PreTradeValidator.validate_data_quality ctx).passed &&
         (PreTradeValidator.validate_market_conditions ctx).passed &&
         (PreTradeValidator.validate_risk_limits ctx).passed &&
         (PreTradeValidator.validate_regulatory ctx).passed &&
         (PreTradeValidator.validate_confidence ctx).passed)) ∧
      ((PreTradeValidator.validate_data_quality ctx).passed =
        ((DataQualityManager.check_price_validity ctx.market_data).passed &&
         (DataQualityManager.check_data_freshness ctx.market_data).passed &&
         (DataQualityManager.check_completeness ctx.market_data).passed &&
         (DataQualityManager.check_not_delisted ctx.market_data).passed &&
         decide ((4 : ℚ) / 5 ≤ (importantPassCount ctx.market_data : ℚ) / 3))) ∧
      ((DataQualityManager.check_price_validity ctx.market_data).passed =
          decide (0 < ctx.market_data.price) ∧
        (DataQualityManager.check_data_freshness ctx.market_data).passed =
          decide (ctx.market_data.data_freshness_ms < 5000) ∧
        (DataQualityManager.check_completeness ctx.market_data).passed =
          decide ((99 : ℚ) / 100 < ctx.market_data.completeness) ∧
        (DataQualityManager.check_not_delisted ctx.market_data).passed =
          !ctx.market_data.is_delisted) := by
  intro ctx
  refine ⟨?_, ?_, rfl, rfl, rfl, rfl⟩
  · simp only [PreTradeValidator.can_trade, PreTradeValidator.validate,
      List.all_cons, List.all_nil, Bool.and_true, Bool.and_assoc]
  · by_cases h1 : (0 : ℚ) < ctx.market_data.price <;>
    by_cases h2 : ctx.market_data.data_freshness_ms < 5000 <;>
    by_cases h3 : (99 : ℚ) / 100 < ctx.market_data.completeness <;>
    cases h4 : ctx.market_data.is_delisted <;>
    by_cases h5 : ctx.market_data.spread_bps < 50 <;>
    by_cases h6 : (0 : ℚ) < ctx.market_data.volume_24h <;>
    cases h7 : ctx.market_data.liquidity_adequate <;>
    simp [PreTradeValidator.validate_data_quality, importantPassCount,
      DataQualityManager.validate, DataQualityManager.is_valid,
      DataQualityManager.check_price_validity, DataQualityManager.check_data_freshness,
      DataQualityManager.check_completeness, DataQualityManager.check_not_delisted,
      DataQualityManager.check_spread_reasonable, DataQualityManager.check_volume_present,
      DataQualityManager.check_liquidity_adequate,
      DataQualityManager.check_funding_rate_present,
      DataQualityManager.check_mark_price_present, max_staleness_ms,
      h1, h2, h3, h4, h5, h6, h7] <;>
    norm_num

/-- Helper for C7: shape of the forced-reset tick.  When the remaining
cooldown truncates to 0 ms but the validation's own millisecond test still
reads fewer than 31000 ms, `validate_pre_reset` fails and the heartbeat
forces the reset anyway, bumping `failed_resets`. -/
theorem heartbeat_forced_reset_eq (now : Nat) (s : SchedulerState) (t : Nat)
    (hcd : s.state = CooldownState.cooldown)
    (hct : s.cooldown_triggered_at = some t)
    (hrem : (TOTAL_RESET_DURATION_NS - (now - t)) / 1000000 = 0)
    (hv : (now - t) / 1000000 < TOTAL_RESET_DURATION_MS) :
    heartbeat_check now s =
      { s with window_start := now, cooldown_triggered_at := none,
               operations := [], total_weight_used := 0, state := CooldownState.active,
               failed_resets := s.failed_resets + 1 } := by
  simp [heartbeat_check, hcd, hct, hrem, validate_pre_reset, hv]

/-- Helper for C7: shape of the validated-reset tick. -/
theorem heartbeat_validated_reset_eq (now : Nat) (s : SchedulerState) (t : Nat)
    (hcd : s.state = CooldownState.cooldown)
    (hct : s.cooldown_triggered_at = some t)
    (hrem : (TOTAL_RESET_DURATION_NS - (now - t)) / 1000000 = 0)
    (hv : ¬ (now - t) / 1000000 < TOTAL_RESET_DURATION_MS) :
    heartbeat_check now s =
      { s with window_start := now, cooldown_triggered_at := none,
               operations := [], total_weight_used := 0, state := CooldownState.active,
               successful_resets := s.successful_resets + 1, last_reset := some now } := by
  simp [heartbeat_check, hcd, hct, hrem, validate_pre_reset, hv]

/-- Helper for C7: outside the cooldown branch no tick touches the reset
counters. -/
theorem heartbeat_noncooldown_counters (now : Nat) (s : SchedulerState)
    (hcd : ¬ s.state = CooldownState.cooldown) :
    (heartbeat_check now s).successful_resets = s.successful_resets ∧
    (heartbeat_check now s).failed_resets = s.failed_resets := by
  constructor <;>
    (unfold heartbeat_check; rw [if_neg hcd]; repeat' split) <;> rfl

/-- C7 counterexample: the window is cleared strictly before 31 s have
elapsed.  At 30999.5 ms after `cooldown_triggered_at`, the remaining
cooldown (0.5 ms) truncates to 0 whole milliseconds, so the reset fires;
`validate_pre_reset` then reads 30999 < 31000 elapsed milliseconds and
fails, and the forced-reset path clears the window anyway — with less than
`reset_duration` elapsed. -/
theorem c7_forced_reset_fires_early_cex :
    (heartbeat_check 30999500000
        { state := CooldownState.cooldown, window_start := 0,
          cooldown_triggered_at := some 0, last_reset := none,
          operations := [⟨30000000000, 5, ("op"), 0⟩], total_weight_used := 5,
          max_weight := 800, operations_count := 1, cooldowns_triggered := 1,
          successful_resets := 0, failed_resets := 0 }).operations = [] ∧
    (heartbeat_check 30999500000
        { state := CooldownState.cooldown, window_start := 0,
          cooldown_triggered_at := some 0, last_reset := none,
          operations := [⟨30000000000, 5, ("op"), 0⟩], total_weight_used := 5,
          max_weight := 800, operations_count := 1, cooldowns_triggered := 1,
          successful_resets := 0, failed_resets := 0 }).total_weight_used = 0 ∧
    (heartbeat_check 30999500000
        { state := CooldownState.cooldown, window_start := 0,
          cooldown_triggered_at := some 0, last_reset := none,
          operations := [⟨30000000000, 5, ("op"), 0⟩], total_weight_used := 5,
          max_weight := 800, operations_count := 1, cooldowns_triggered := 1,
          successful_resets := 0, failed_resets := 0 }).state = CooldownState.active ∧
    (heartbeat_check 30999500000
        { state := CooldownState.cooldown, window_start := 0,
          cooldown_triggered_at := some 0, last_reset := none,
          operations := [⟨30000000000, 5, ("op"), 0⟩], total_weight_used := 5,
          max_weight := 800, operations_count := 1, cooldowns_triggered := 1,
          successful_resets := 0, failed_resets := 0 }).failed_resets = 1 ∧
    30999500000 - 0 < TOTAL_RESET_DURATION_NS := by
  refine ⟨?_, ?_, ?_, ?_, ?_⟩ <;> decide

/-- C7 (amended): a reset — either kind — clears the window only when more
than 30999 ms (31 s minus one whole millisecond, the resolution of the
`as_millis` truncation) have elapsed since `cooldown_triggered_at`, and the
validated reset (the one that bumps `successful_resets`) only when the full
`TOTAL_RESET_DURATION` of 31 s has elapsed.  The forced-reset path can fire
up to one millisecond early; nothing else touches the reset counters. -/
theorem c7_reset_timing_amended :
    ∀ (now : Nat) (s : SchedulerState),
      ((heartbeat_check now s).successful_resets + (heartbeat_check now s).failed_resets ≠
          s.successful_resets + s.failed_resets →
        ∃ t, s.cooldown_triggered_at = some t ∧
          (heartbeat_check now s).operations = [] ∧
          (heartbeat_check now s).total_weight_used = 0 ∧
          (heartbeat_check now s).state = CooldownState.active ∧
          30999000000 < now - t) ∧
      ((heartbeat_check now s).successful_resets ≠ s.successful_resets →
        ∃ t, s.cooldown_triggered_at = some t ∧ TOTAL_RESET_DURATION_NS ≤ now - t) := by
  intro now s
  by_cases hcd : s.state = CooldownState.cooldown
  · cases hct : s.cooldown_triggered_at with
    | none =>
      have h1 : (heartbeat_check now s).successful_resets = s.successful_resets := by
        simp [heartbeat_check, hcd, hct]
      have h2 : (heartbeat_check now s).failed_resets = s.failed_resets := by
        simp [heartbeat_check, hcd, hct]
      exact ⟨fun h => absurd (by rw [h1, h2]) h, fun h => absurd h1 h⟩
    | some t =>
      by_cases hrem : (TOTAL_RESET_DURATION_NS - (now - t)) / 1000000 = 0
      · have hrem' : (31000000000 - (now - t)) / 1000000 = 0 := hrem
        by_cases hv : (now - t) / 1000000 < TOTAL_RESET_DURATION_MS
        · have hres := heartbeat_forced_reset_eq now s t hcd hct hrem hv
          constructor
          · intro _
            refine ⟨t, rfl, by rw [hres], by rw [hres], by rw [hres], by omega⟩
          · intro h2
            rw [hres] at h2
            exact absurd rfl h2
        · have hres := heartbeat_validated_reset_eq now s t hcd hct hrem hv
          have hv' : ¬ (now - t) / 1000000 < 31000 := hv
          have hb : TOTAL_RESET_DURATION_NS ≤ now - t := by
            show 31000000000 ≤ now - t
            omega
          constructor
          · intro _
            refine ⟨t, rfl, by rw [hres], by rw [hres], by rw [hres], ?_⟩
            have hb' : 31000000000 ≤ now - t := hb
            omega
          · intro _
            exact ⟨t, rfl, hb⟩
      · have h1 : (heartbeat_check now s).successful_resets = s.successful_resets := by
          simp [heartbeat_check, hcd, hct, hrem]
        have h2 : (heartbeat_check now s).failed_resets = s.failed_resets := by
          simp [heartbeat_check, hcd, hct, hrem]
        exact ⟨fun h => absurd (by rw [h1, h2]) h, fun h => absurd h1 h⟩
  · obtain ⟨h1, h2⟩ := heartbeat_noncooldown_counters now s hcd
    exact ⟨fun h => absurd (by rw [h1, h2]) h, fun h => absurd h1 h⟩

/-- Witness for the amended C7: at exactly 31 s the validated reset fires. -/
theorem c7_reset_timing_amended_witness :
    ∃ t, c7WitnessState.cooldown_triggered_at = some t ∧
      TOTAL_RESET_DURATION_NS ≤ 31000000000 - t :=
  (c7_reset_timing_amended 31000000000 c7WitnessState).2 (by decide)

/-- C9 (confirmed): `can_proceed` in COOLDOWN or RESETTING (with the
cooldown trigger recorded) returns `false` together with the remaining time
to the reset, `TOTAL_RESET_DURATION − elapsed`; in HEAVY-throttle it returns
`true` with a jitter(400, 800) ms delay when the projected usage
`(total_weight_used + weight) / max_weight` is below 0.88, and `(false,
1000 ms)` otherwise. -/
theorem c9_can_proceed_cooldown_heavy :
    ∀ (now : Nat) (s : SchedulerState) (w hash : Nat),
      (∀ t, (s.state = CooldownState.cooldown ∨ s.state = CooldownState.resetting) →
        s.cooldown_triggered_at = some t →
        (can_proceed now s w hash).2 = (false, TOTAL_RESET_DURATION_NS - (now - t))) ∧
      (s.state = CooldownState.heavyThrottle →
        ((((s.total_weight_used + w : Nat) : ℚ) / (s.max_weight : ℚ) < (22 : ℚ) / 25 →
           (can_proceed now s w hash).2 = (true, jitterNs 400 800 hash) ∧
           400 * 1000000 ≤ ((can_proceed now s w hash).2).2 ∧
           ((can_proceed now s w hash).2).2 ≤ 800 * 1000000) ∧
         (¬ ((s.total_weight_used + w : Nat) : ℚ) / (s.max_weight : ℚ) < (22 : ℚ) / 25 →
           (can_proceed now s w hash).2 = (false, 1000000000)))) := by
  intro now s w hash
  constructor
  · intro t hst hct
    rcases hst with h | h <;> simp only [can_proceed, h, hct]
  · intro hst
    constructor
    · intro hlt
      have hmod : hash % 401 ≤ 400 := Nat.le_of_lt_succ (Nat.mod_lt _ (by norm_num))
      refine ⟨?_, ?_, ?_⟩
      · simp only [can_proceed, hst]
        rw [if_pos hlt]
      · simp only [can_proceed, hst]
        rw [if_pos hlt]
        simp only [jitterNs]
        omega
      · simp only [can_proceed, hst]
        rw [if_pos hlt]
        simp only [jitterNs]
        omega
    · intro hge
      simp only [can_proceed, hst]
      rw [if_neg hge]

/-- Witness for C9 at concrete states: in cooldown the advised wait is the
remaining reset time; under heavy throttle at projected usage 610/800 the
call is admitted with the jittered delay. -/
theorem c9_can_proceed_cooldown_heavy_witness :
    (can_proceed 500 c9CoolState 5 7).2 =
      (false, TOTAL_RESET_DURATION_NS - (500 - 100)) ∧
    (can_proceed 0 c9HeavyState 10 12).2 = (true, jitterNs 400 800 12) :=
  ⟨(c9_can_proceed_cooldown_heavy 500 c9CoolState 5 7).1 100 (Or.inl (by rfl)) (by rfl),
   (((c9_can_proceed_cooldown_heavy 0 c9HeavyState 10 12).2 (by rfl)).1
     (by norm_num [c9HeavyState, initialSchedulerState])).1⟩

/-- C10 (confirmed): `can_proceed` and `get_stats` never modify the
scheduler state — both return it unchanged, for every state, weight, clock
and jitter draw; `record_operation` and `heartbeat_check` are the only
state-valued operations in the embedding. -/
theorem c10_read_paths_frame :
    ∀ (now : Nat) (s : SchedulerState) (w hash : Nat),
      (can_proceed now s w hash).1 = s ∧ (get_stats now s).1 = s := by
  intro now s w hash
  exact ⟨rfl, rfl⟩

/-- Helper for C8: `within_safety_bounds` ignores the metadata fields that
`analyze_and_optimize` stamps onto an accepted proposal. -/
theorem within_safety_bounds_metadata (p : DynamicParameters) (b : SafetyBounds)
    (lu : Nat) (ur : String) (cs : ℚ) :
    within_safety_bounds
      { p with last_updated := lu, update_reason := ur, confidence_score := cs } b =
      within_safety_bounds p b := rfl

/-- Helper for C8: when the proposal falls outside the safety bounds,
`analyze_and_optimize` returns `None`, whatever else happened. -/
theorem analyze_eq_none (now : Nat) (metrics : PerformanceMetrics)
    (params : DynamicParameters) (bounds : SafetyBounds)
    (history : List PerformanceSnapshot)
    (hw : within_safety_bounds
      (proposeAdjustments metrics params bounds (calculate_trend history)).1 bounds =
        false) :
    analyze_and_optimize now metrics params bounds history = none := by
  unfold analyze_and_optimize
  by_cases hadj : (proposeAdjustments metrics params bounds (calculate_trend history)).2.1 = true
  · simp only [hadj, if_true, within_safety_bounds_metadata, hw]
    rfl
  · simp only [Bool.not_eq_true] at hadj
    simp only [hadj]
    rfl

/-- C8 (code bug): at `c8Metrics`/`c8Params` the satisfaction rule proposes
`c8Proposed` (`adjusted = true`), the proposal is outside the safety bounds
(270 s < 300 s), and `analyze_and_optimize` rejects it silently (`None`, so
the optimizer tick leaves the parameters unchanged) — but no code path ever
increments `safety_bounds_hits`, so the rejection is not counted: the
counter keeps its initial value. -/
theorem c8_rejection_not_counted :
    (proposeAdjustments c8Metrics c8Params defaultSafetyBounds
        defaultPerformanceTrend).2.1 = true ∧
    within_safety_bounds c8Proposed defaultSafetyBounds = false ∧
    analyze_and_optimize 60 c8Metrics c8Params defaultSafetyBounds [] = none ∧
    (optimizerTick 60 c8Metrics c8Params defaultSafetyBounds []
        initialOptimizerStats).1 = c8Params ∧
    (optimizerTick 60 c8Metrics c8Params defaultSafetyBounds []
        initialOptimizerStats).2.2.safety_bounds_hits =
      initialOptimizerStats.safety_bounds_hits := by
  have htrend : calculate_trend ([] : List PerformanceSnapshot) = defaultPerformanceTrend := by
    norm_num [calculate_trend]
  have hprop : proposeAdjustments c8Metrics c8Params defaultSafetyBounds
      defaultPerformanceTrend = (c8Proposed, true, [("satisfaction_low")]) := by
    norm_num [proposeAdjustments, c8Metrics, c8Params, c8Proposed,
      defaultDynamicParameters, defaultSafetyBounds, defaultPerformanceTrend]
  have hwithin : within_safety_bounds c8Proposed defaultSafetyBounds = false := by
    simp [within_safety_bounds, c8Proposed, c8Params, defaultDynamicParameters,
      defaultSafetyBounds]
  have hnone : analyze_and_optimize 60 c8Metrics c8Params defaultSafetyBounds [] = none := by
    apply analyze_eq_none
    rw [htrend, hprop]
    exact hwithin
  refine ⟨?_, hwithin, hnone, ?_, ?_⟩
  · rw [hprop]
  · unfold optimizerTick
    rw [hnone]
  · unfold optimizerTick
    rw [hnone]

end KC
